import Mathlib

/-!
# Verification of the msgpack-c memory pool (`msgpack::zone`)

Shallow embedding of `src/include/msgpack/detail/cpp11_zone.hpp` (the whole
repository consists of this one header).  The embedding targets an LP64
platform: pointers are 8 bytes, `int` is 4 bytes, `size_t` is 64 bits.

Modelling decisions, all driven by the source:

* Addresses are natural numbers; the C++ null pointer is the number `0`
  (`malloc` never returns the address 0 on success).
* The system allocator (`::malloc` / `::realloc`) is modelled by an oracle:
  a list of natural numbers consumed front to back, one entry per allocator
  call.  The entry is the address the allocator returns; the entry `0`
  (or an exhausted list) is an allocation failure (C++: a null return).
* A `chunk` record carries its `malloc` base address together with its usable
  size.  The size is ghost information: the C++ `chunk` struct stores only the
  `m_next` link (line 98-100), but the usable size of every block is fixed at
  the moment the block is malloc'd, so carrying it in the model is sound and
  lets the specification talk about storage regions.
* Finalizer invocation (running the stored function pointer on the stored
  data pointer) is observable only through *which* (function, data) pairs run
  and in *which order*; operations that invoke finalizers therefore return the
  list of invoked finalizers as a trace, in invocation order.
* C++ exceptions (`std::bad_alloc` from `push_expand`, a user constructor
  throwing inside `zone::allocate<T>`) are modelled with `Except`.
-/

namespace msgpack

/-- `MSGPACK_ZONE_CHUNK_SIZE` default (cpp11_zone.hpp line 28). -/
def MSGPACK_ZONE_CHUNK_SIZE : Nat := 8192

/-- `MSGPACK_ZONE_ALIGN = sizeof(int)` (line 32); 4 bytes on the modelled platform. -/
def MSGPACK_ZONE_ALIGN : Nat := 4

/-- `sizeof(chunk)`: the struct holds one pointer (lines 98-100); 8 bytes on LP64. -/
def sizeof_chunk : Nat := 8

/-- `sizeof(finalizer)`: one function pointer plus one data pointer (lines 39-44);
16 bytes on LP64. -/
def sizeof_finalizer : Nat := 16

/-- `sizeof(zone)`: `m_chunk_size` (8) + `chunk_list` (8+8+8) + `finalizer_array`
(8+8+8) = 56 bytes on LP64. -/
def sizeof_zone : Nat := 56

/-- `size_t` arithmetic is modulo `2 ^ 64`. -/
def SIZE_MOD : Nat := 2 ^ 64

/-- The system-allocator oracle: addresses handed out by successive
`::malloc` / `::realloc` calls; `0` means the call fails. -/
abbrev Alloc := List Nat

/-- Consume one allocator response (an exhausted oracle also fails). -/
def Alloc.next : Alloc → Nat × Alloc
  | [] => (0, [])
  | a :: r => (a, r)

/-- Error signals surfaced by zone operations. -/
inductive zerr where
  /-- `std::bad_alloc` (thrown by `finalizer_array::push_expand`, line 85, or
  by the `chunk_list` constructor, line 106). -/
  | badAlloc : zerr
  /-- the user-supplied constructor of `T` threw the exception `e` inside
  `zone::allocate<T>` (line 310). -/
  | ctorThrow (e : Nat) : zerr
  /-- `zone::allocate<T>` reached `new (x) T(args...)` with `x = nullptr`
  (possible because `allocate_expand` returns `nullptr` on `malloc` failure,
  line 251, and `allocate<T>` never checks): undefined behaviour. -/
  | nullNew : zerr
deriving DecidableEq

deriving instance DecidableEq for Except

/-- `struct finalizer` (lines 39-44): a function pointer and a data pointer,
modelled as a function identifier and a data address. -/
structure finalizer where
  m_func : Nat
  m_data : Nat
deriving DecidableEq

/-- `zone::object_destructor<T>` (lines 286-290): the destructor-calling thunk
for the type identified by `tyId`; distinct types give distinct functions. -/
def object_destructor (tyId : Nat) : Nat := tyId

/-- `struct finalizer_array` (lines 45-97).  The populated region
`[m_array, m_tail)` is the list `entries` (in push order); the capacity
`m_end - m_array` is `cap`. -/
structure finalizer_array where
  entries : List finalizer
  cap : Nat
deriving DecidableEq

/-- The default constructor (line 46): all three pointers null. -/
def finalizer_array.init : finalizer_array := ⟨[], 0⟩

/-- `finalizer_array::call` (lines 47-50): invoke every registered finalizer
from `m_tail - 1` down to `m_array`.  Returns the invocation trace. -/
def finalizer_array.call (fa : finalizer_array) : List finalizer :=
  fa.entries.reverse

/-- `finalizer_array::clear` (lines 55-58): `call()` then `m_tail = m_array`. -/
def finalizer_array.clear (fa : finalizer_array) :
    List finalizer × finalizer_array :=
  (fa.call, { fa with entries := [] })

/-- `finalizer_array::push_expand` (lines 73-93).  `nused = m_end - m_array`
(the capacity); the new capacity is `72 / sizeof(finalizer)` when starting from
empty (the branch `sizeof(finalizer) < 72/2` holds on LP64) and `2 * nused`
otherwise.  `realloc` keeps the first `nused` entries; on failure
`std::bad_alloc` is thrown with the array unchanged (the members are only
assigned after the null check). -/
def finalizer_array.push_expand (fa : finalizer_array) (f : finalizer)
    (al : Alloc) : Except zerr finalizer_array × Alloc :=
  let nused := fa.cap
  let nnext := if nused = 0 then
      (if sizeof_finalizer < 72 / 2 then 72 / sizeof_finalizer else 8)
    else nused * 2
  let tmp := (Alloc.next al).1
  let al1 := (Alloc.next al).2
  if tmp = 0 then (Except.error zerr.badAlloc, al1)
  else (Except.ok { entries := fa.entries.take nused ++ [f], cap := nnext }, al1)

/-- `finalizer_array::push` (lines 59-72): write at `m_tail` when capacity
remains, otherwise grow via `push_expand`. -/
def finalizer_array.push (fa : finalizer_array) (f : finalizer) (al : Alloc) :
    Except zerr finalizer_array × Alloc :=
  if fa.entries.length = fa.cap then fa.push_expand f al
  else (Except.ok { fa with entries := fa.entries ++ [f] }, al)

/-- `struct chunk` (lines 98-100): a raw block; `base` is the address `malloc`
returned for it, `size` its usable byte count (ghost, see the file header).
The storage region of a chunk is `[base + sizeof_chunk, base + sizeof_chunk + size)`. -/
structure chunk where
  base : Nat
  size : Nat
deriving DecidableEq

/-- `struct chunk_list` (lines 101-147).  `m_head` is the newest chunk;
`m_rest` is the remaining `m_next` chain, newest first, so the terminal chunk
(the one with `m_next == nullptr`) is the last element. -/
structure chunk_list where
  m_free : Nat
  m_ptr : Nat
  m_head : chunk
  m_rest : List chunk
deriving DecidableEq

/-- Walk a chunk and its `m_next` chain to the terminal node (the node whose
`m_next` is null), as `chunk_list::clear` and the destructor do. -/
def lastChunk (c : chunk) : List chunk → chunk
  | [] => c
  | d :: l => lastChunk d l

/-- The terminal chunk of the list: the node with no back-link (reached when
the list was constructed). -/
def chunk_list.terminal (cl : chunk_list) : chunk :=
  lastChunk cl.m_head cl.m_rest

/-- The `chunk_list` constructor (lines 102-113):
`malloc(sizeof(chunk) + chunk_size)`, throwing `std::bad_alloc` on failure. -/
def chunk_list.init (chunk_size : Nat) (al : Alloc) :
    Except zerr chunk_list × Alloc :=
  let c := (Alloc.next al).1
  let al1 := (Alloc.next al).2
  if c = 0 then (Except.error zerr.badAlloc, al1)
  else (Except.ok { m_free := chunk_size, m_ptr := c + sizeof_chunk,
                    m_head := ⟨c, chunk_size⟩, m_rest := [] }, al1)

/-- `chunk_list::clear` (lines 127-143): walk from the head, freeing every
chunk until the terminal node is reached; keep that node as the sole head and
reset the bump state to `chunk_size` free bytes from the start of its storage. -/
def chunk_list.clear (cl : chunk_list) (chunk_size : Nat) : chunk_list :=
  { m_free := chunk_size,
    m_ptr := cl.terminal.base + sizeof_chunk,
    m_head := cl.terminal,
    m_rest := [] }

/-- `class zone` (lines 37-199): the configured chunk size, the chunk list and
the finalizer registry. -/
structure zone where
  m_chunk_size : Nat
  m_chunk_list : chunk_list
  m_finalizer_array : finalizer_array
deriving DecidableEq

/-- The growth-size loop of `allocate_expand` (lines 244-248):
`sz = m_chunk_size; while (sz < size) sz *= 2;`, in unbounded arithmetic.
The C++ loop computes in `size_t`, where `sz *= 2` wraps modulo `2 ^ 64`:
`growLoopC` below is the faithful wrapped model, and `growLoopC_eq_growLoop`
proves the two agree -- with the C++ loop terminating -- exactly on requests
of at most `2 ^ 63` bytes; for larger requests the C++ loop wraps `sz` to
zero and never exits, so this unbounded value corresponds to no program
behaviour (the growth theorem therefore carries a `size ≤ 2 ^ 63` bound, and
statements quantified over larger sizes describe states the program reaches
only where it terminates at all).  The C++
loop also never terminates when `m_chunk_size = 0 < size`; the model returns
the junk value `0` there (theorems assume a positive configured chunk
size). -/
def growLoop (size sz : Nat) : Nat :=
  if h : 0 < sz ∧ sz < size then growLoop size (sz * 2) else sz
termination_by size - sz
decreasing_by omega

/-- Invariant carried by `growLoopAux`: if the loop state is divisible by
`2 ^ (64 - (fuel + 1))`, then after one more `sz *= 2` step in `size_t`
arithmetic it is divisible by `2 ^ (64 - fuel)` (the reduction modulo
`2 ^ 64` cannot destroy divisibility by a power of two that divides
`2 ^ 64`). -/
theorem pow_dvd_double_mod {fuel sz : Nat}
    (h : 2 ^ (64 - (fuel + 1)) ∣ sz) : 2 ^ (64 - fuel) ∣ sz * 2 % SIZE_MOD := by
  have h1 : (2 : Nat) ^ (64 - fuel) ∣ sz * 2 := by
    rcases le_or_lt 64 fuel with hf | hf
    · simp [Nat.sub_eq_zero_of_le hf]
    · have he : 64 - fuel = (64 - (fuel + 1)) + 1 := by omega
      rw [he, pow_succ]
      exact Nat.mul_dvd_mul h (dvd_refl 2)
  have h2 : (2 : Nat) ^ (64 - fuel) ∣ SIZE_MOD :=
    pow_dvd_pow 2 (by omega)
  exact (Nat.dvd_mod_iff h2).mpr h1

/-- The growth-size loop of `allocate_expand` (lines 244-248) in faithful
`size_t` arithmetic: `sz *= 2` wraps modulo `2 ^ 64`.  Returns `some sz` with
the loop's final value when `while (sz < size) sz *= 2;` exits, and `none`
when it never exits.  Justification of the shape: each iteration at least
doubles the power of two dividing `sz` (`pow_dvd_double_mod`), so after 64
iterations `sz` is divisible by `2 ^ 64` and, being a `size_t` value below
`2 ^ 64`, is zero -- and a zero `sz` doubles to zero forever, so with
`size > 0` the loop can never exit.  `fuel` counts down those at most 64
productive iterations; in the fuel-exhausted arm the two invariant arguments
force `sz = 0`, where the C++ loop exits only if `size = 0` (then
`sz < size` fails at once) and otherwise spins forever. -/
def growLoopAux (size : Nat) :
    (fuel sz : Nat) → 2 ^ (64 - fuel) ∣ sz → sz < SIZE_MOD → Option Nat
  | 0, sz, _, _ => if size ≤ sz then some sz else none
  | fuel + 1, sz, hdvd, _ =>
    if size ≤ sz then some sz
    else growLoopAux size fuel (sz * 2 % SIZE_MOD) (pow_dvd_double_mod hdvd)
      (Nat.mod_lt _ (by decide))

/-- Result of the `size_t` doubling loop started, as in the source, at the
configured chunk size (a `size_t`, hence reduced modulo `2 ^ 64`; the
reduction is the identity for every value the C++ member can hold):
`some sz` when the loop exits with `sz`, `none` when it never exits. -/
def growLoopC (size cs : Nat) : Option Nat :=
  growLoopAux size 64 (cs % SIZE_MOD) (Nat.one_dvd _)
    (Nat.mod_lt _ (by decide))

/-- `zone::allocate_expand` (lines 240-261).  Returns the served pointer
(`0` = `nullptr` when `malloc` fails, in which case the zone is untouched). -/
def zone.allocate_expand (z : zone) (size : Nat) (al : Alloc) :
    Nat × zone × Alloc :=
  let sz := growLoop size z.m_chunk_size
  let c := (Alloc.next al).1
  let al1 := (Alloc.next al).2
  if c = 0 then (0, z, al1)
  else
    (c + sizeof_chunk,
     { z with m_chunk_list :=
        { m_free := sz - size,
          m_ptr := c + sizeof_chunk + size,
          m_head := ⟨c, sz⟩,
          m_rest := z.m_chunk_list.m_head :: z.m_chunk_list.m_rest } },
     al1)

/-- `zone::allocate_no_align` (lines 227-238): serve from the head chunk when
it has room, otherwise grow. -/
def zone.allocate_no_align (z : zone) (size : Nat) (al : Alloc) :
    Nat × zone × Alloc :=
  if z.m_chunk_list.m_free < size then z.allocate_expand size al
  else
    (z.m_chunk_list.m_ptr,
     { z with m_chunk_list :=
        { z.m_chunk_list with
            m_free := z.m_chunk_list.m_free - size,
            m_ptr := z.m_chunk_list.m_ptr + size } },
     al)

/-- The size rounding of `allocate_align` (line 224):
`((size)+((MSGPACK_ZONE_ALIGN)-1)) & ~((MSGPACK_ZONE_ALIGN)-1)` in `size_t`
arithmetic.  The mask clears the low bits, i.e. subtracts the remainder
modulo the alignment. -/
def align_up (s : Nat) : Nat :=
  ((s + (MSGPACK_ZONE_ALIGN - 1)) % SIZE_MOD) -
    ((s + (MSGPACK_ZONE_ALIGN - 1)) % SIZE_MOD) % MSGPACK_ZONE_ALIGN

/-- `zone::allocate_align` (lines 221-225): round the size up, then delegate. -/
def zone.allocate_align (z : zone) (size : Nat) (al : Alloc) :
    Nat × zone × Alloc :=
  z.allocate_no_align (align_up size) al

/-- `zone::push_finalizer(func, data)` (lines 263-266). -/
def zone.push_finalizer (z : zone) (func data : Nat) (al : Alloc) :
    Except zerr Unit × zone × Alloc :=
  match z.m_finalizer_array.push ⟨func, data⟩ al with
  | (Except.ok fa, al1) => (Except.ok (), { z with m_finalizer_array := fa }, al1)
  | (Except.error e, al1) => (Except.error e, z, al1)

/-- `zone::push_finalizer(msgpack::unique_ptr<T> obj)` (lines 268-273):
`push(&object_destructor<T>, obj.get()); obj.release();`.  The returned `Bool`
records whether `obj.release()` was executed, i.e. whether the caller's
`unique_ptr` gave up ownership; when `push` throws, `release` is never reached
and the by-value parameter still owns the object (its destructor then runs
once during unwinding). -/
def zone.push_finalizer_unique (z : zone) (tyId addr : Nat) (al : Alloc) :
    Except zerr Unit × zone × Bool × Alloc :=
  match z.m_finalizer_array.push ⟨object_destructor tyId, addr⟩ al with
  | (Except.ok fa, al1) =>
      (Except.ok (), { z with m_finalizer_array := fa }, true, al1)
  | (Except.error e, al1) => (Except.error e, z, false, al1)

/-- `zone::clear` (lines 275-279): run all finalizers (the trace), then clear
the chunk list with the configured chunk size. -/
def zone.clear (z : zone) : List finalizer × zone :=
  (z.m_finalizer_array.call,
   { z with
      m_finalizer_array := (z.m_finalizer_array.clear).2,
      m_chunk_list := z.m_chunk_list.clear z.m_chunk_size })

/-- The finalizer invocations performed by `~zone` (run by `zone::destroy`,
lines 211-215): the `finalizer_array` destructor (lines 51-54) calls `call()`;
afterwards all registry and chunk storage is freed. -/
def zone.destroyTrace (z : zone) : List finalizer :=
  z.m_finalizer_array.call

/-- `zone::undo_allocate` (lines 292-296). -/
def zone.undo_allocate (z : zone) (size : Nat) : zone :=
  { z with m_chunk_list :=
      { z.m_chunk_list with
          m_ptr := z.m_chunk_list.m_ptr - size,
          m_free := z.m_chunk_list.m_free + size } }

/-- `zone::allocate<T, Args...>` (lines 299-316).  `sizeofT` is `sizeof(T)`,
`tyId` identifies `T` (so `object_destructor tyId` is `&object_destructor<T>`),
and `ctorThrows` is `none` when `T`'s constructor succeeds and `some e` when it
throws the exception `e`.  The source reserves `allocate_align(sizeof(T))`
bytes, pushes the finalizer (rolling the reservation back by `sizeof(T)` and
rethrowing if the push throws), then placement-news `T` at the reserved
address (on a constructor throw: `--m_tail`, roll back `sizeof(T)`, rethrow).
A null result from `allocate_align` is never checked; placement-new at null is
undefined behaviour, modelled as the `zerr.nullNew` outcome at the state the
program reached. -/
def zone.allocate (z : zone) (sizeofT tyId : Nat) (ctorThrows : Option Nat)
    (al : Alloc) : Except zerr Nat × zone × Alloc :=
  let r := z.allocate_align sizeofT al
  let x := r.1
  let z1 := r.2.1
  match z1.m_finalizer_array.push ⟨object_destructor tyId, x⟩ r.2.2 with
  | (Except.error e, al2) => (Except.error e, z1.undo_allocate sizeofT, al2)
  | (Except.ok fa, al2) =>
    let z2 := { z1 with m_finalizer_array := fa }
    if x = 0 then (Except.error zerr.nullNew, z2, al2)
    else
      match ctorThrows with
      | none => (Except.ok x, z2, al2)
      | some e =>
          (Except.error (zerr.ctorThrow e),
           ({ z2 with m_finalizer_array :=
                { fa with entries := fa.entries.dropLast } }).undo_allocate
             sizeofT,
           al2)

/-- Outcome of `zone::create`. -/
inductive createResult where
  /-- success: `zbase` is the address of the combined
  `malloc(sizeof(zone) + chunk_size)` block, `z` the constructed zone. -/
  | ok (zbase : Nat) (z : zone) : createResult
  /-- the combined allocation failed; `create` returns `nullptr` (line 205). -/
  | retNull : createResult
  /-- the combined allocation succeeded but the `chunk_list` constructor's own
  `malloc` failed: `std::bad_alloc` escapes the `noexcept` zone constructor
  (line 217), so `std::terminate` is called. -/
  | terminated : createResult
deriving DecidableEq

/-- `zone::create` (lines 201-209): one `malloc(sizeof(zone) + chunk_size)`
for the combined block, then placement-new of `zone(chunk_size)`, whose
constructor (lines 217-219) runs the `chunk_list` constructor -- which
performs its own, second `malloc` for the first chunk (line 104). -/
def zone.create (chunk_size : Nat) (al : Alloc) : createResult × Alloc :=
  let zb := (Alloc.next al).1
  let al1 := (Alloc.next al).2
  if zb = 0 then (createResult.retNull, al1)
  else
    match chunk_list.init chunk_size al1 with
    | (Except.ok cl, al2) =>
        (createResult.ok zb ⟨chunk_size, cl, finalizer_array.init⟩, al2)
    | (Except.error _, al2) => (createResult.terminated, al2)

/-- `zone::swap` (lines 281-284): `std::swap(*this, o)`.  `zone` declares no
copy or move operations and its members `chunk_list` and `finalizer_array`
have user-declared destructors and no move operations, so the `std::swap`
template's local temporary `T c(std::move(a))` is a memberwise *pointer copy*
of the first zone; `a = std::move(b)` and `b = std::move(c)` likewise copy
pointers.  When the temporary is destroyed at the end of `std::swap`, its
destructor invokes every finalizer the first zone had registered (the returned
trace) and frees the first zone's registry storage and every chunk of its
list -- storage the second returned zone still points to. -/
def zone.swapExec (x o : zone) : zone × zone × List finalizer :=
  (o, x, x.m_finalizer_array.call)

/-- The chunk-list invariant stated by the spec: `m_ptr` points inside the
head chunk's storage region and `m_free` is the distance from `m_ptr` to the
end of that region. -/
def chunk_list.inv (cl : chunk_list) : Prop :=
  cl.m_head.base + sizeof_chunk ≤ cl.m_ptr ∧
  cl.m_ptr + cl.m_free = cl.m_head.base + sizeof_chunk + cl.m_head.size

instance (cl : chunk_list) : Decidable cl.inv := by
  unfold chunk_list.inv; exact inferInstance

/-- The registry invariant stated by the spec: `m_array <= m_tail <= m_end`,
i.e. the populated prefix fits the capacity. -/
def finalizer_array.inv (fa : finalizer_array) : Prop :=
  fa.entries.length ≤ fa.cap

instance (fa : finalizer_array) : Decidable fa.inv := by
  unfold finalizer_array.inv; exact inferInstance

/-- The zone invariant: a positive configured chunk size (with chunk size `0`
the growth loop of `allocate_expand` never terminates, so such zones have no
defined behaviour to specify), both component invariants, and the fact --
established by the constructor and preserved ever since -- that the terminal
chunk's usable size is the configured chunk size (`chunk_list::clear` relies
on it when it resets `m_free = chunk_size`, line 141). -/
def zone.inv (z : zone) : Prop :=
  0 < z.m_chunk_size ∧
  z.m_chunk_list.inv ∧
  z.m_finalizer_array.inv ∧
  z.m_chunk_list.terminal.size = z.m_chunk_size

instance (z : zone) : Decidable z.inv := by
  unfold zone.inv; exact inferInstance

/-! ## Helper lemmas -/

/-- The growth loop never stops below the requested size (when it starts from
a positive seed, as the C++ loop must to terminate at all). -/
theorem growLoop_ge (size sz : Nat) (h : 0 < sz) : size ≤ growLoop size sz := by
  rw [growLoop]
  split
  · exact growLoop_ge size (sz * 2) (by omega)
  · omega
termination_by size - sz
decreasing_by omega

/-- On the wrap-free region the fueled `size_t` loop agrees with the
unbounded model `growLoop`: for requests of at most `2 ^ 63` bytes a positive
loop state below the request doubles without ever wrapping, so the loop exits
before the fuel runs out and never reaches zero. -/
theorem growLoopAux_eq (size : Nat) (hsize : size ≤ 2 ^ 63) :
    ∀ fuel sz (h1 : 2 ^ (64 - fuel) ∣ sz) (h2 : sz < SIZE_MOD), 0 < sz →
      growLoopAux size fuel sz h1 h2 = some (growLoop size sz) := by
  intro fuel
  induction fuel with
  | zero =>
    intro sz h1 h2 hpos
    have hz : sz = 0 := Nat.eq_zero_of_dvd_of_lt h1 h2
    omega
  | succ n ih =>
    intro sz h1 h2 hpos
    simp only [growLoopAux]
    split
    · next hge =>
      rw [growLoop]
      rw [dif_neg (by omega)]
    · next hge =>
      have hlt : sz < size := by omega
      have h63 : (2 : Nat) ^ 64 = 2 ^ 63 * 2 := by norm_num
      have hm : sz * 2 % SIZE_MOD = sz * 2 := by
        apply Nat.mod_eq_of_lt
        simp only [SIZE_MOD]
        omega
      rw [ih (sz * 2 % SIZE_MOD) (pow_dvd_double_mod h1)
        (Nat.mod_lt _ (by decide)) (by omega)]
      rw [hm]
      conv_rhs => rw [growLoop, dif_pos ⟨hpos, hlt⟩]

/-- For requests of at most `2 ^ 63` bytes and a positive configured chunk
size (a `size_t` value), the growth loop of `allocate_expand` terminates and
its result is the value the unbounded model computes. -/
theorem growLoopC_eq_growLoop (size cs : Nat) (hcs : 0 < cs)
    (hcs2 : cs < SIZE_MOD) (hsize : size ≤ 2 ^ 63) :
    growLoopC size cs = some (growLoop size cs) := by
  unfold growLoopC
  have hm : cs % SIZE_MOD = cs := Nat.mod_eq_of_lt hcs2
  have h := growLoopAux_eq size hsize 64 (cs % SIZE_MOD) (Nat.one_dvd _)
    (Nat.mod_lt _ (by decide)) (by omega)
  rw [h, hm]

/-- The rounded size is always a multiple of the alignment. -/
theorem align_up_dvd (s : Nat) : MSGPACK_ZONE_ALIGN ∣ align_up s := by
  simp only [align_up, MSGPACK_ZONE_ALIGN]
  have := Nat.div_add_mod ((s + (4 - 1)) % SIZE_MOD) 4
  exact ⟨(s + (4 - 1)) % SIZE_MOD / 4, by omega⟩

/-- Rounding fixes multiples of the alignment (below the `size_t` wraparound). -/
theorem align_up_of_dvd (s : Nat) (h4 : s % MSGPACK_ZONE_ALIGN = 0)
    (hs : s + MSGPACK_ZONE_ALIGN ≤ SIZE_MOD) : align_up s = s := by
  simp only [align_up, MSGPACK_ZONE_ALIGN, SIZE_MOD] at *
  have h1 : (s + (4 - 1)) % 2 ^ 64 = s + 3 := Nat.mod_eq_of_lt (by omega)
  rw [h1]
  omega

/-- Bounds on the rounded size (below the `size_t` wraparound). -/
theorem align_up_bounds (s : Nat) (hs : s + MSGPACK_ZONE_ALIGN ≤ SIZE_MOD) :
    s ≤ align_up s ∧ align_up s ≤ s + (MSGPACK_ZONE_ALIGN - 1) := by
  simp only [align_up, MSGPACK_ZONE_ALIGN, SIZE_MOD] at *
  have h1 : (s + (4 - 1)) % 2 ^ 64 = s + 3 := Nat.mod_eq_of_lt (by omega)
  rw [h1]
  have h2 : (s + 3) % 4 < 4 := Nat.mod_lt _ (by omega)
  have h3 : 4 ∣ s + 3 - (s + 3) % 4 := by
    have := Nat.div_add_mod (s + 3) 4
    exact ⟨(s + 3) / 4, by omega⟩
  omega

/-- A successful `push` appends exactly the pushed finalizer. -/
theorem push_ok_entries {fa fa' : finalizer_array} {f : finalizer}
    {al al' : Alloc} (h : fa.push f al = (Except.ok fa', al')) :
    fa'.entries = fa.entries ++ [f] := by
  simp only [finalizer_array.push, finalizer_array.push_expand] at h
  split at h
  · next hlen =>
    split at h
    · exact absurd (congrArg Prod.fst h) (by simp)
    · have := congrArg Prod.fst h
      simp only [Except.ok.injEq] at this
      rw [← this]
      simp [← hlen, List.take_length]
  · have := congrArg Prod.fst h
    simp only [Except.ok.injEq] at this
    rw [← this]

/-- `push` fails only with `bad_alloc`, leaving the registry untouched (the
members are only assigned after `realloc`'s null check). -/
theorem push_error_eq {fa : finalizer_array} {f : finalizer} {e : zerr}
    {al al' : Alloc} (h : fa.push f al = (Except.error e, al')) :
    e = zerr.badAlloc := by
  simp only [finalizer_array.push, finalizer_array.push_expand] at h
  split at h
  · split at h
    · have := congrArg Prod.fst h
      simp only [Except.error.injEq] at this
      exact this.symm
    · exact absurd (congrArg Prod.fst h) (by simp)
  · exact absurd (congrArg Prod.fst h) (by simp)

/-- A successful `push` preserves the registry invariant. -/
theorem push_ok_inv {fa fa' : finalizer_array} {f : finalizer}
    {al al' : Alloc} (hinv : fa.inv) (h : fa.push f al = (Except.ok fa', al')) :
    fa'.inv := by
  unfold finalizer_array.inv at *
  simp only [finalizer_array.push, finalizer_array.push_expand,
    sizeof_finalizer] at h
  norm_num at h
  split at h
  · next hlen =>
    split at h
    · exact absurd (congrArg Prod.fst h) (by simp)
    · have := congrArg Prod.fst h
      simp only [Except.ok.injEq] at this
      rw [← this]
      simp only [List.length_append, List.length_take, List.length_cons,
        List.length_nil]
      split
      · next hz => omega
      · next hz => omega
  · next hlen =>
    have := congrArg Prod.fst h
    simp only [Except.ok.injEq] at this
    rw [← this]
    simp only [List.length_append, List.length_cons, List.length_nil]
    omega

/-- Raw allocation never touches the finalizer registry. -/
theorem allocate_no_align_fa (z : zone) (s : Nat) (al : Alloc) :
    ((z.allocate_no_align s al).2.1).m_finalizer_array = z.m_finalizer_array := by
  simp only [zone.allocate_no_align, zone.allocate_expand]
  split
  · split <;> rfl
  · rfl

/-- Aligned raw allocation never touches the finalizer registry. -/
theorem allocate_align_fa (z : zone) (s : Nat) (al : Alloc) :
    ((z.allocate_align s al).2.1).m_finalizer_array = z.m_finalizer_array := by
  unfold zone.allocate_align
  exact allocate_no_align_fa z (align_up s) al

/-- Raw allocation never changes the configured chunk size. -/
theorem allocate_no_align_cs (z : zone) (s : Nat) (al : Alloc) :
    ((z.allocate_no_align s al).2.1).m_chunk_size = z.m_chunk_size := by
  simp only [zone.allocate_no_align, zone.allocate_expand]
  split
  · split <;> rfl
  · rfl

/-- Raw allocation never changes the terminal chunk: growth prepends a new
head whose back-link chain ends in the old terminal node. -/
theorem allocate_no_align_terminal (z : zone) (s : Nat) (al : Alloc) :
    ((z.allocate_no_align s al).2.1).m_chunk_list.terminal
      = z.m_chunk_list.terminal := by
  simp only [zone.allocate_no_align, zone.allocate_expand]
  split
  · split
    · rfl
    · simp only [chunk_list.terminal, lastChunk]
  · rfl

/-- Raw allocation preserves the zone invariant. -/
theorem inv_allocate_no_align (z : zone) (s : Nat) (al : Alloc) (hz : z.inv) :
    ((z.allocate_no_align s al).2.1).inv := by
  obtain ⟨hcs, ⟨hlo, hsum⟩, hfa, hterm⟩ := hz
  refine ⟨?_, ?_, ?_, ?_⟩
  · rw [allocate_no_align_cs]; exact hcs
  · simp only [zone.allocate_no_align, zone.allocate_expand]
    split
    · split
      · exact ⟨hlo, hsum⟩
      · constructor
        · simp only [chunk_list.inv]; omega
        · have hge := growLoop_ge s z.m_chunk_size hcs
          simp only [chunk_list.inv]
          omega
    · next hfree =>
      constructor
      · simp only []; omega
      · simp only []; omega
  · rw [allocate_no_align_fa]; exact hfa
  · rw [allocate_no_align_terminal, allocate_no_align_cs]; exact hterm

/-- Aligned-allocation versions of the preservation lemmas. -/
theorem inv_allocate_align (z : zone) (s : Nat) (al : Alloc) (hz : z.inv) :
    ((z.allocate_align s al).2.1).inv :=
  inv_allocate_no_align z (align_up s) al hz

/-- When the aligned raw allocation of `allocate<T>` succeeds (returns a
non-null pointer), the new bump pointer sits at least `s` bytes past the start
of the (possibly new) head chunk's storage, so `undo_allocate s` stays inside
it. -/
theorem allocate_align_ptr_lb (z : zone) (s : Nat) (al : Alloc)
    (hlo : z.m_chunk_list.m_head.base + sizeof_chunk ≤ z.m_chunk_list.m_ptr)
    (hs : s + MSGPACK_ZONE_ALIGN ≤ SIZE_MOD)
    (hx : (z.allocate_align s al).1 ≠ 0) :
    ((z.allocate_align s al).2.1).m_chunk_list.m_head.base + sizeof_chunk + s
      ≤ ((z.allocate_align s al).2.1).m_chunk_list.m_ptr := by
  have hb := align_up_bounds s hs
  simp only [zone.allocate_align, zone.allocate_no_align,
    zone.allocate_expand] at hx ⊢
  split at hx
  · next h1 =>
    rw [if_pos h1]
    split at hx
    · exact absurd rfl hx
    · next h2 => rw [if_neg h2]; dsimp only; omega
  · next h1 => rw [if_neg h1]; dsimp only; omega

/-- A fully successful `allocate<T>` appends exactly one finalizer,
`(object_destructor<T>, returned address)`, to the registry. -/
theorem allocate_ok_entries {z z' : zone} {s t x : Nat} {c : Option Nat}
    {al al' : Alloc} (h : z.allocate s t c al = (Except.ok x, z', al')) :
    z'.m_finalizer_array.entries
      = z.m_finalizer_array.entries ++ [⟨object_destructor t, x⟩] := by
  simp only [zone.allocate] at h
  split at h
  · exact absurd (congrArg Prod.fst h) (by simp)
  · next fa al2 hpush =>
    split at h
    · exact absurd (congrArg Prod.fst h) (by simp)
    · split at h
      · next =>
        have hx := congrArg Prod.fst h
        simp at hx
        have hz := congrArg (fun p => p.2.1) h
        simp at hz
        rw [← hz]
        simp only []
        have := push_ok_entries hpush
        rw [allocate_align_fa] at this
        rw [this, hx]
      · exact absurd (congrArg Prod.fst h) (by simp)

/-! ## Concrete fixtures used by the witnesses and counterexamples

`zWit` is the state of a freshly constructed zone with chunk size 64 whose
first chunk was malloc'd at address 1000 (so its storage region is
`[1008, 1072)`); the other fixtures are states reached from such zones by the
operations named in the corresponding theorems. -/

def zWit : zone := ⟨64, ⟨64, 1008, ⟨1000, 64⟩, []⟩, ⟨[], 0⟩⟩

/-- `zWit` after `allocate<A>` (size 4, type id 1, registry grown at 5000). -/
def zWitA : zone := ⟨64, ⟨60, 1012, ⟨1000, 64⟩, []⟩, ⟨[⟨1, 1008⟩], 4⟩⟩

/-- `zWitA` after `allocate<B>` (size 4, type id 2). -/
def zWitB : zone :=
  ⟨64, ⟨56, 1016, ⟨1000, 64⟩, []⟩, ⟨[⟨1, 1008⟩, ⟨2, 1012⟩], 4⟩⟩

/-- `zWitB` after `allocate<C>` (size 4, type id 3). -/
def zWitC : zone :=
  ⟨64, ⟨52, 1020, ⟨1000, 64⟩, []⟩, ⟨[⟨1, 1008⟩, ⟨2, 1012⟩, ⟨3, 1016⟩], 4⟩⟩

/-- A fresh zone with chunk size 4, first chunk at 1000. -/
def zWitSmall : zone := ⟨4, ⟨4, 1008, ⟨1000, 4⟩, []⟩, ⟨[], 0⟩⟩

/-! ## The claims -/

/-- C1: for every arena and every sequence of successful typed allocations of
objects A then B then C (no intervening clear), `clear()` -- and likewise
destruction -- invokes each registered object's destructor exactly once and in
reverse registration order (C, then B, then A, then any finalizers registered
before A, themselves newest-first), and never any other order; after `clear()`
the registry is empty, so none of them is ever invoked again by a later clear
or by destruction. -/
theorem c1_finalizer_order
    (z za zb zc : zone) (al al1 al2 al3 : Alloc)
    (sa sb sc ta tb tc xa xb xc : Nat)
    (ha : z.allocate sa ta none al = (Except.ok xa, za, al1))
    (hb : za.allocate sb tb none al1 = (Except.ok xb, zb, al2))
    (hc : zb.allocate sc tc none al2 = (Except.ok xc, zc, al3)) :
    (zc.clear).1 =
      [⟨object_destructor tc, xc⟩, ⟨object_destructor tb, xb⟩,
       ⟨object_destructor ta, xa⟩] ++ z.m_finalizer_array.entries.reverse ∧
    zc.destroyTrace =
      [⟨object_destructor tc, xc⟩, ⟨object_destructor tb, xb⟩,
       ⟨object_destructor ta, xa⟩] ++ z.m_finalizer_array.entries.reverse ∧
    ((zc.clear).2).m_finalizer_array.entries = [] ∧
    (((zc.clear).2).clear).1 = [] ∧
    ((zc.clear).2).destroyTrace = [] := by
  have hent : zc.m_finalizer_array.entries
      = z.m_finalizer_array.entries ++
        [⟨object_destructor ta, xa⟩, ⟨object_destructor tb, xb⟩,
         ⟨object_destructor tc, xc⟩] := by
    rw [allocate_ok_entries hc, allocate_ok_entries hb, allocate_ok_entries ha]
    simp
  refine ⟨?_, ?_, rfl, rfl, rfl⟩
  · simp only [zone.clear, finalizer_array.call, hent]
    simp
  · simp only [zone.destroyTrace, finalizer_array.call, hent]
    simp

/-- Witness for C1: three typed allocations of size 4 (type ids 1, 2, 3) on a
fresh zone, then `clear()`. -/
theorem c1_finalizer_order_witness :
    (zWitC.clear).1 = [⟨3, 1016⟩, ⟨2, 1012⟩, ⟨1, 1008⟩] ∧
    zWitC.destroyTrace = [⟨3, 1016⟩, ⟨2, 1012⟩, ⟨1, 1008⟩] ∧
    ((zWitC.clear).2).m_finalizer_array.entries = [] ∧
    (((zWitC.clear).2).clear).1 = [] ∧
    ((zWitC.clear).2).destroyTrace = [] :=
  c1_finalizer_order zWit zWitA zWitB zWitC [5000] [] [] [] 4 4 4 1 2 3
    1008 1012 1016 (by decide) (by decide) (by decide)

/-- C4 counterexample: on an aligned fresh zone (chunk base 1000, bump pointer
1008, both multiples of the alignment 4), `allocate_no_align(1)` leaves the
bump pointer at 1009; the next `allocate_align(4)` then returns 1009, which is
not a multiple of `MSGPACK_ZONE_ALIGN`: the claim fails for prior operation
sequences that contain an unaligned-size raw allocation, because
`allocate_align` rounds only the size, never the current pointer. -/
theorem c4_counterexample :
    zWit.m_chunk_list.m_ptr % MSGPACK_ZONE_ALIGN = 0 ∧
    (((zWit.allocate_no_align 1 []).2.1).allocate_align 4 []).1 = 1009 ∧
    (((zWit.allocate_no_align 1 []).2.1).allocate_align 4 []).1
      % MSGPACK_ZONE_ALIGN = 1 := by
  decide

/-- C4 (amended): a successful `allocate_align(size)` returns an address that
is a multiple of `MSGPACK_ZONE_ALIGN` -- and keeps the bump pointer aligned --
provided the current bump pointer is aligned (as it is when every prior raw
allocation had a size that is a multiple of the alignment, e.g. was made
through `allocate_align`) and the system allocator returns aligned blocks (as
`malloc` does), because the aligned variant rounds the size up to the
alignment boundary before delegating. -/
theorem c4_align (z : zone) (s : Nat) (al : Alloc)
    (hptr : z.m_chunk_list.m_ptr % MSGPACK_ZONE_ALIGN = 0)
    (hal : ∀ a ∈ al, a % MSGPACK_ZONE_ALIGN = 0) :
    ((z.allocate_align s al).1 ≠ 0 →
      (z.allocate_align s al).1 % MSGPACK_ZONE_ALIGN = 0) ∧
    ((z.allocate_align s al).2.1).m_chunk_list.m_ptr % MSGPACK_ZONE_ALIGN
      = 0 := by
  obtain ⟨k, hk⟩ := align_up_dvd s
  simp only [zone.allocate_align, zone.allocate_no_align, zone.allocate_expand]
  split
  · cases al with
    | nil =>
      simp only [Alloc.next, if_pos rfl]
      exact ⟨fun h => absurd rfl h, hptr⟩
    | cons a r =>
      have ha : a % MSGPACK_ZONE_ALIGN = 0 := hal a (by simp)
      simp only [Alloc.next]
      split
      · exact ⟨fun h => absurd rfl h, hptr⟩
      · dsimp only
        simp only [MSGPACK_ZONE_ALIGN, sizeof_chunk] at *
        omega
  · dsimp only
    simp only [MSGPACK_ZONE_ALIGN] at *
    omega

/-- Witness for C4 (amended): `allocate_align(4)` on the aligned fresh zone. -/
theorem c4_align_witness :
    ((zWit.allocate_align 4 []).1 ≠ 0 →
      (zWit.allocate_align 4 []).1 % MSGPACK_ZONE_ALIGN = 0) ∧
    ((zWit.allocate_align 4 []).2.1).m_chunk_list.m_ptr % MSGPACK_ZONE_ALIGN
      = 0 :=
  c4_align zWit 4 [] (by decide) (by decide)

/-- A zone with the default chunk size 8192 whose head chunk (at 1000) is
fully consumed (`m_free = 0`). -/
def zWit8192 : zone := ⟨8192, ⟨0, 9200, ⟨1000, 8192⟩, []⟩, ⟨[], 0⟩⟩

/-- C5 counterexample: on a zone with the default configured chunk size 8192
and no free bytes in the head chunk, the request `2 ^ 63 + 1` exceeds the
remaining space, so `allocate_no_align` enters `allocate_expand` (line 230),
whose first step is the doubling loop `while (sz < size) sz *= 2;`
(lines 246-248).  In `size_t` arithmetic the iterates from 8192 are
`2 ^ 13, 2 ^ 14, ..., 2 ^ 63`, all below the request, and the next doubling
wraps to 0, which doubles to 0 forever: the faithful loop model `growLoopC`
returns `none` -- the loop never exits, the program hangs before reaching
`malloc`, and no block of any size is ever allocated or linked, so the claim
fails for this request. -/
theorem c5_counterexample :
    zWit8192.m_chunk_size = MSGPACK_ZONE_CHUNK_SIZE ∧
    zWit8192.m_chunk_list.m_free < 2 ^ 63 + 1 ∧
    growLoopC (2 ^ 63 + 1) zWit8192.m_chunk_size = none := by
  decide

/-- C5 (amended): when the requested size exceeds the head chunk's remaining
free bytes *and is at most `2 ^ 63` bytes* (so that the `size_t` doubling
loop terminates -- for larger requests it wraps to zero and never exits, see
the counterexample), growth mallocs a new block whose usable size is the
configured base chunk size doubled repeatedly until it reaches the requested
size (the terminating loop's value, `growLoop`, never smaller than
requested), links it as the new head with the old head as its sole back-link
(the old head record, its already-allocated contents included, is kept
unchanged at the front of the tail list), serves the request from the new
block's start, and leaves the head's free counter at the new block's size
minus the requested size. -/
theorem c5_grow (z : zone) (size b : Nat) (rest : Alloc)
    (hcs : 0 < z.m_chunk_size) (hcs2 : z.m_chunk_size < SIZE_MOD)
    (hsize : size ≤ 2 ^ 63)
    (hfree : z.m_chunk_list.m_free < size) (hb : b ≠ 0) :
    growLoopC size z.m_chunk_size = some (growLoop size z.m_chunk_size) ∧
    z.allocate_no_align size (b :: rest) =
      (b + sizeof_chunk,
       { z with m_chunk_list :=
          { m_free := growLoop size z.m_chunk_size - size,
            m_ptr := b + sizeof_chunk + size,
            m_head := ⟨b, growLoop size z.m_chunk_size⟩,
            m_rest := z.m_chunk_list.m_head :: z.m_chunk_list.m_rest } },
       rest) ∧
    size ≤ growLoop size z.m_chunk_size := by
  refine ⟨growLoopC_eq_growLoop size _ hcs hcs2 hsize, ?_,
    growLoop_ge size _ hcs⟩
  simp only [zone.allocate_no_align, zone.allocate_expand, Alloc.next]
  rw [if_pos hfree, if_neg hb]

/-- Witness for C5 (amended): a zone with chunk size 4 and 4 free bytes
receives a request for 8 bytes; the loop terminates and the new head has size
`growLoop 8 4 = 8`. -/
theorem c5_grow_witness :
    growLoopC 8 4 = some (growLoop 8 4) ∧
    zWitSmall.allocate_no_align 8 [2000] =
      (2008,
       { zWitSmall with m_chunk_list :=
          { m_free := growLoop 8 4 - 8, m_ptr := 2016,
            m_head := ⟨2000, growLoop 8 4⟩, m_rest := [⟨1000, 4⟩] } },
       []) ∧
    8 ≤ growLoop 8 4 :=
  c5_grow zWitSmall 8 2000 [] (by decide) (by decide) (by decide) (by decide)
    (by decide)

/-- C6: in every reachable state, `clear()` keeps exactly the terminal chunk
(the node with no back-link) as the sole remaining head, resets its bump
pointer to the start of its storage and its free counter to the configured
chunk size; consequently any allocation of at most the configured chunk size
is then satisfied from that chunk without growing (no system-allocator call,
head and tail unchanged). -/
theorem c6_clear_retains_terminal (z : zone) (size : Nat) (al : Alloc)
    (hsz : size ≤ z.m_chunk_size) :
    ((z.clear).2).m_chunk_list.m_head = z.m_chunk_list.terminal ∧
    ((z.clear).2).m_chunk_list.m_rest = [] ∧
    ((z.clear).2).m_chunk_list.m_free = z.m_chunk_size ∧
    ((z.clear).2).m_chunk_list.m_ptr
      = z.m_chunk_list.terminal.base + sizeof_chunk ∧
    (((z.clear).2).allocate_no_align size al).1
      = z.m_chunk_list.terminal.base + sizeof_chunk ∧
    (((z.clear).2).allocate_no_align size al).2.2 = al ∧
    (((z.clear).2).allocate_no_align size al).2.1.m_chunk_list.m_head
      = z.m_chunk_list.terminal ∧
    (((z.clear).2).allocate_no_align size al).2.1.m_chunk_list.m_rest = [] := by
  refine ⟨rfl, rfl, rfl, rfl, ?_⟩
  simp only [zone.clear, chunk_list.clear, zone.allocate_no_align]
  rw [if_neg (by omega)]
  exact ⟨rfl, rfl, rfl, rfl⟩

/-- A zone with chunk size 4 that has grown a second chunk: head at 2000
(size 8, fully used), terminal original chunk at 1000. -/
def zWitGrown : zone := ⟨4, ⟨0, 2016, ⟨2000, 8⟩, [⟨1000, 4⟩]⟩, ⟨[], 0⟩⟩

/-- Witness for C6: `zWitGrown` cleared, then asked for a full chunk-size
allocation. -/
theorem c6_clear_retains_terminal_witness :
    ((zWitGrown.clear).2).m_chunk_list.m_head = ⟨1000, 4⟩ ∧
    ((zWitGrown.clear).2).m_chunk_list.m_rest = [] ∧
    ((zWitGrown.clear).2).m_chunk_list.m_free = 4 ∧
    ((zWitGrown.clear).2).m_chunk_list.m_ptr = 1008 ∧
    (((zWitGrown.clear).2).allocate_no_align 4 []).1 = 1008 ∧
    (((zWitGrown.clear).2).allocate_no_align 4 []).2.2 = [] ∧
    (((zWitGrown.clear).2).allocate_no_align 4 []).2.1.m_chunk_list.m_head
      = ⟨1000, 4⟩ ∧
    (((zWitGrown.clear).2).allocate_no_align 4 []).2.1.m_chunk_list.m_rest
      = [] :=
  c6_clear_retains_terminal zWitGrown 4 [] (by decide)

/-- C2 counterexample: on the fresh zone `zWit` (free = 64, ptr = 1008),
`allocate<T>` with `sizeof(T) = 6` reserves `align_up 6 = 8` bytes but the
constructor-failure path rolls back only `sizeof(T) = 6` of them
(`undo_allocate(sizeof(T))`, line 313): afterwards the free counter is 62 and
the bump pointer 1010, not the 64 and 1008 they held before the call, so the
claim's "restored to their values before the call" is false. -/
theorem c2_counterexample :
    (zWit.allocate 6 1 (some 9) [5000]).2.1.m_chunk_list.m_free = 62 ∧
    zWit.m_chunk_list.m_free = 64 ∧
    (zWit.allocate 6 1 (some 9) [5000]).2.1.m_chunk_list.m_ptr = 1010 ∧
    zWit.m_chunk_list.m_ptr = 1008 := by
  decide

/-- C2 (amended): when the constructor of `T` signals an error after storage
was reserved and the finalizer was registered, the just-pushed finalizer
entry is removed without being invoked, the failure is propagated unchanged,
and a subsequent `clear()` invokes only the destructors of previously
successfully constructed objects; the chunk list's bump pointer and free
counter are restored to their values before the call provided `sizeof(T)` is
a multiple of `MSGPACK_ZONE_ALIGN` and the request was served from the head
chunk without growth (otherwise the rollback, which subtracts `sizeof(T)`
rather than the reserved rounded size, leaves them off by the padding, and a
grown chunk stays in place). -/
theorem c2_ctor_rollback (z : zone) (s t e : Nat) (al al2 : Alloc)
    (fa2 : finalizer_array)
    (hs4 : s % MSGPACK_ZONE_ALIGN = 0)
    (hsz : s + MSGPACK_ZONE_ALIGN ≤ SIZE_MOD)
    (hfit : s ≤ z.m_chunk_list.m_free)
    (hptr : z.m_chunk_list.m_ptr ≠ 0)
    (hpush : z.m_finalizer_array.push
        ⟨object_destructor t, z.m_chunk_list.m_ptr⟩ al = (Except.ok fa2, al2)) :
    (z.allocate s t (some e) al).1 = Except.error (zerr.ctorThrow e) ∧
    (z.allocate s t (some e) al).2.1.m_chunk_list = z.m_chunk_list ∧
    (z.allocate s t (some e) al).2.1.m_finalizer_array.entries
      = z.m_finalizer_array.entries ∧
    ((z.allocate s t (some e) al).2.1.clear).1
      = z.m_finalizer_array.entries.reverse ∧
    (z.allocate s t (some e) al).2.2 = al2 := by
  have haeq : align_up s = s := align_up_of_dvd s hs4 hsz
  have hdrop : fa2.entries.dropLast = z.m_finalizer_array.entries := by
    rw [push_ok_entries hpush]
    exact List.dropLast_concat ..
  simp only [zone.allocate, zone.allocate_align, zone.allocate_no_align,
    haeq]
  rw [if_neg (by omega)]
  try dsimp only
  rw [hpush]
  try dsimp only
  rw [if_neg hptr]
  simp only [zone.undo_allocate, zone.clear, finalizer_array.call]
  try dsimp only
  refine ⟨by trivial, ?_, hdrop, by rw [hdrop], by trivial⟩
  have h1 : z.m_chunk_list.m_ptr + s - s = z.m_chunk_list.m_ptr := by omega
  have h2 : z.m_chunk_list.m_free - s + s = z.m_chunk_list.m_free := by omega
  rw [h1, h2]

/-- Witness for C2 (amended): `sizeof(T) = 4`, constructor throws `9`, on the
fresh zone `zWit` with the registry grown at 5000. -/
theorem c2_ctor_rollback_witness :
    (zWit.allocate 4 1 (some 9) [5000]).1 = Except.error (zerr.ctorThrow 9) ∧
    (zWit.allocate 4 1 (some 9) [5000]).2.1.m_chunk_list = zWit.m_chunk_list ∧
    (zWit.allocate 4 1 (some 9) [5000]).2.1.m_finalizer_array.entries
      = zWit.m_finalizer_array.entries ∧
    ((zWit.allocate 4 1 (some 9) [5000]).2.1.clear).1
      = zWit.m_finalizer_array.entries.reverse ∧
    (zWit.allocate 4 1 (some 9) [5000]).2.2 = [] :=
  c2_ctor_rollback zWit 4 1 9 [5000] [] ⟨[⟨1, 1008⟩], 4⟩
    (by decide) (by decide) (by decide) (by decide) (by decide)

/-- C3: evaluation at the failing input.  A zone with 4 free bytes and spare
registry capacity runs `allocate<T>` with `sizeof(T) = 8` while `malloc`
fails: `allocate_expand` returns null (line 251), `allocate<T>` never checks,
registers a finalizer whose data pointer is null, and reaches placement-new
on null (undefined behaviour) -- the out-of-memory condition is not surfaced
as a failure signal of the allocation call, and a finalizer referencing
unconstructed storage remains registered, contradicting the claim. -/
theorem c3_oom_not_surfaced :
    (⟨4, ⟨4, 1008, ⟨1000, 4⟩, []⟩, ⟨[], 4⟩⟩ : zone).allocate 8 1 none [0] =
      (Except.error zerr.nullNew,
       ⟨4, ⟨4, 1008, ⟨1000, 4⟩, []⟩, ⟨[⟨object_destructor 1, 0⟩], 4⟩⟩, []) := by
  decide

/-- C7: evaluation at the failing input.  `zone::swap` is
`std::swap(*this, o)` on a type whose members are not movable, so the local
temporary of `std::swap` is a memberwise pointer copy of the first zone; when
it is destroyed at the end of `std::swap` it invokes every finalizer the
first zone had registered (and frees that zone's registry storage and chunks,
which the second result still references).  Here the swap of a zone holding
one finalizer `(1, 500)` invokes that finalizer during the swap,
contradicting the claim that no finalizer from either side is invoked. -/
theorem c7_swap_invokes_finalizers :
    (zone.swapExec
        ⟨64, ⟨64, 3008, ⟨3000, 64⟩, []⟩, ⟨[⟨1, 500⟩], 4⟩⟩ zWit).2.2
      = [⟨1, 500⟩] ∧
    (⟨64, ⟨64, 3008, ⟨3000, 64⟩, []⟩, ⟨[⟨1, 500⟩], 4⟩⟩
      : zone).m_finalizer_array.entries ≠ [] := by
  decide

/-- C8 counterexample: `create(64)` with the allocator handing out blocks at
1000 and then 2000 consumes *two* system allocations, and the first chunk
lives at the separately malloc'd address 2000, outside the combined block
`[1000, 1000 + sizeof_zone + 64)` -- the `chunk_list` constructor mallocs the
first chunk itself (line 104), so a second system allocation *is* made for
the first chunk and the claim's "no second system allocation" is false. -/
theorem c8_counterexample :
    zone.create 64 [1000, 2000] =
      (createResult.ok 1000 ⟨64, ⟨64, 2008, ⟨2000, 64⟩, []⟩, ⟨[], 0⟩⟩, []) ∧
    ¬ (1000 ≤ 2000 ∧ 2000 < 1000 + sizeof_zone + 64) := by
  decide

/-- C8 (amended): `create(chunk_size)` performs a single system allocation
sized to hold the arena header plus `chunk_size` bytes, in-place-constructs
the arena into that block and returns the handle, or returns a failure
indicator (null) when the allocator cannot supply the block; however the
arena constructor's chunk list then performs a *second* system allocation for
the first chunk, so the combined block's trailing `chunk_size` bytes go
unused; `destroy(arena)` runs the arena's destruction logic (invoking the
remaining finalizers newest-first) and releases the combined allocation. -/
theorem c8_create (cs zb cb : Nat) (rest : Alloc) (hzb : zb ≠ 0)
    (hcb : cb ≠ 0) :
    zone.create cs (zb :: cb :: rest) =
      (createResult.ok zb
        ⟨cs, ⟨cs, cb + sizeof_chunk, ⟨cb, cs⟩, []⟩, ⟨[], 0⟩⟩, rest) ∧
    zone.create cs (0 :: rest) = (createResult.retNull, rest) ∧
    (∀ z : zone, z.destroyTrace = z.m_finalizer_array.entries.reverse) := by
  refine ⟨?_, by simp [zone.create, Alloc.next], fun z => rfl⟩
  simp only [zone.create, chunk_list.init, Alloc.next]
  rw [if_neg hzb]
  simp only [if_neg hcb]
  rfl

/-- Witness for C8 (amended): `create(64)` with blocks at 1000 and 2000, and
a failing first allocation. -/
theorem c8_create_witness :
    zone.create 64 [1000, 2000] =
      (createResult.ok 1000 ⟨64, ⟨64, 2008, ⟨2000, 64⟩, []⟩, ⟨[], 0⟩⟩, []) ∧
    zone.create 64 [0] = (createResult.retNull, []) ∧
    (∀ z : zone, z.destroyTrace = z.m_finalizer_array.entries.reverse) :=
  c8_create 64 1000 2000 [] (by decide) (by decide)

/-- A zone with chunk size 4, 4 free bytes, and a full finalizer registry
(4 entries, capacity 4) -- reachable by four pushes on a fresh zone. -/
def zWitFull : zone :=
  ⟨4, ⟨4, 1008, ⟨1000, 4⟩, []⟩,
   ⟨[⟨1, 101⟩, ⟨2, 102⟩, ⟨3, 103⟩, ⟨4, 104⟩], 4⟩⟩

/-- C9 counterexample: `zWitFull` satisfies the invariants, but the typed
allocation `allocate<T>` with `sizeof(T) = 8` in which *both* the growth
`malloc` and the registry `realloc` fail runs the rollback
`undo_allocate(sizeof(T))` even though the raw allocation never advanced the
bump pointer (it returned null): the pointer is moved 8 bytes *before* the
head chunk's storage start and the free counter exceeds the chunk size, so
this failure path does not preserve the structural invariants. -/
theorem c9_counterexample :
    zWitFull.inv ∧ ¬ ((zWitFull.allocate 8 1 none [0, 0]).2.1).inv := by
  decide

/-- C9 (amended): raw allocation (aligned or unaligned, success or failure),
finalizer registration (success or failure), `clear()`, and every path of
typed allocation *whose raw-allocation step succeeded* (construction or
registration may still fail and roll back) preserve the structural
invariants: the bump pointer stays inside the head chunk's storage with
`m_free` the distance to its end, and the registry keeps
`m_array ≤ m_tail ≤ m_end`.  (The excluded path -- typed allocation whose
raw allocation returned null -- breaks the invariant, see the
counterexample.) -/
theorem c9_invariants (z : zone) (hz : z.inv) :
    (∀ s al, ((z.allocate_no_align s al).2.1).inv) ∧
    (∀ s al, ((z.allocate_align s al).2.1).inv) ∧
    (∀ f d al, ((z.push_finalizer f d al).2.1).inv) ∧
    ((z.clear).2).inv ∧
    (∀ s t c al, s + MSGPACK_ZONE_ALIGN ≤ SIZE_MOD →
      (z.allocate_align s al).1 ≠ 0 → ((z.allocate s t c al).2.1).inv) := by
  obtain ⟨hcs, ⟨hlo, hsum⟩, hfa, hterm⟩ := hz
  have hzinv : z.inv := ⟨hcs, ⟨hlo, hsum⟩, hfa, hterm⟩
  refine ⟨fun s al => inv_allocate_no_align z s al hzinv,
          fun s al => inv_allocate_align z s al hzinv, ?_, ?_, ?_⟩
  · intro f d al
    simp only [zone.push_finalizer]
    split
    · next fa' al1 hp => exact ⟨hcs, ⟨hlo, hsum⟩, push_ok_inv hfa hp, hterm⟩
    · exact hzinv
  · refine ⟨hcs, ⟨le_refl _, ?_⟩, Nat.zero_le _, hterm⟩
    show z.m_chunk_list.terminal.base + sizeof_chunk + z.m_chunk_size
      = z.m_chunk_list.terminal.base + sizeof_chunk
          + z.m_chunk_list.terminal.size
    rw [hterm]
  · intro s t c al hs hx
    have h1 : ((z.allocate_align s al).2.1).inv :=
      inv_allocate_align z s al hzinv
    obtain ⟨hcs1, ⟨hlo1, hsum1⟩, hfa1, hterm1⟩ := h1
    have hlb := allocate_align_ptr_lb z s al hlo hs hx
    simp only [zone.allocate]
    split
    · next e al2 hp =>
      refine ⟨hcs1, ⟨?_, ?_⟩, ?_, ?_⟩
      · simp only [zone.undo_allocate]; omega
      · simp only [zone.undo_allocate]; omega
      · simp only [zone.undo_allocate]; exact hfa1
      · simp only [zone.undo_allocate, chunk_list.terminal]; exact hterm1
    · next fa al2 hp =>
      have hfa2 : fa.inv := by
        refine push_ok_inv ?_ hp
        rw [allocate_align_fa]; exact hfa
      split
      · exact ⟨hcs1, ⟨hlo1, hsum1⟩, hfa2, hterm1⟩
      · split
        · exact ⟨hcs1, ⟨hlo1, hsum1⟩, hfa2, hterm1⟩
        · refine ⟨hcs1, ⟨?_, ?_⟩, ?_, ?_⟩
          · simp only [zone.undo_allocate]; omega
          · simp only [zone.undo_allocate]; omega
          · simp only [zone.undo_allocate, finalizer_array.inv]
            have : fa.entries.dropLast.length ≤ fa.entries.length :=
              List.length_dropLast .. ▸ Nat.sub_le _ _
            exact le_trans this hfa2
          · simp only [zone.undo_allocate, chunk_list.terminal]; exact hterm1

/-- Witness for C9 (amended): the fresh zone `zWit` satisfies the invariant,
and so do the states after a raw allocation, after `clear()`, and after a
typed allocation. -/
theorem c9_invariants_witness :
    zWit.inv ∧ ((zWit.allocate_no_align 4 []).2.1).inv ∧
    ((zWit.clear).2).inv ∧ ((zWit.allocate 4 1 none [5000]).2.1).inv :=
  ⟨by decide, (c9_invariants zWit (by decide)).1 4 [],
   (c9_invariants zWit (by decide)).2.2.2.1,
   (c9_invariants zWit (by decide)).2.2.2.2 4 1 none [5000] (by decide)
     (by decide)⟩

/-- C10: for the ownership-transferring
`push_finalizer(msgpack::unique_ptr<T>)`, ownership is relinquished
(`obj.release()` runs) only after the registry push succeeds.  If the push
fails, the zone is unchanged -- in particular no finalizer for the object was
added, so a later `clear()` invokes its destructor zero additional times
(the object is destroyed exactly once, by the still-owning `unique_ptr`
parameter during unwinding).  If the push succeeds, exactly one finalizer for
the object is appended, so a later `clear()` invokes its destructor exactly
one additional time and the arena owns the destruction. -/
theorem c10_unique_push (z : zone) (t a : Nat) (al : Alloc) :
    (∀ e z2 rel al2,
      z.push_finalizer_unique t a al = (Except.error e, z2, rel, al2) →
      z2 = z ∧ rel = false ∧
      ((z2.clear).1.count ⟨object_destructor t, a⟩
        = z.m_finalizer_array.entries.count ⟨object_destructor t, a⟩)) ∧
    (∀ z2 rel al2,
      z.push_finalizer_unique t a al = (Except.ok (), z2, rel, al2) →
      rel = true ∧
      z2.m_finalizer_array.entries
        = z.m_finalizer_array.entries ++ [⟨object_destructor t, a⟩] ∧
      ((z2.clear).1.count ⟨object_destructor t, a⟩
        = z.m_finalizer_array.entries.count ⟨object_destructor t, a⟩ + 1)) := by
  constructor
  · intro e z2 rel al2 h
    simp only [zone.push_finalizer_unique] at h
    split at h
    · exact absurd (congrArg (fun p => p.1) h) (by simp)
    · next e1 al1 hp =>
      have h1 := congrArg (fun p => p.2.1) h
      have h2 := congrArg (fun p => p.2.2.1) h
      simp at h1 h2
      subst h1 h2
      refine ⟨rfl, rfl, ?_⟩
      simp [zone.clear, finalizer_array.call, List.count_reverse]
  · intro z2 rel al2 h
    simp only [zone.push_finalizer_unique] at h
    split at h
    · next fa al1 hp =>
      have h1 := congrArg (fun p => p.2.1) h
      have h2 := congrArg (fun p => p.2.2.1) h
      simp at h1 h2
      subst h1 h2
      have he := push_ok_entries hp
      refine ⟨rfl, he, ?_⟩
      simp [zone.clear, finalizer_array.call, List.count_reverse, he,
        List.count_append]
    · exact absurd (congrArg (fun p => p.1) h) (by simp)

/-- `zWit` after a successful ownership-transferring push of
`(object_destructor 1, 500)` (registry grown at 7000). -/
def zWitPF : zone := ⟨64, ⟨64, 1008, ⟨1000, 64⟩, []⟩, ⟨[⟨1, 500⟩], 4⟩⟩

/-- Witness for C10: the successful push on `zWit` transfers ownership and
adds exactly one finalizer for the object. -/
theorem c10_unique_push_witness :
    true = true ∧
    zWitPF.m_finalizer_array.entries
      = zWit.m_finalizer_array.entries ++ [⟨object_destructor 1, 500⟩] ∧
    ((zWitPF.clear).1.count ⟨object_destructor 1, 500⟩
      = zWit.m_finalizer_array.entries.count ⟨object_destructor 1, 500⟩ + 1) :=
  (c10_unique_push zWit 1 500 [7000]).2 zWitPF true [] (by decide)

end msgpack
